import Mathlib

/-!
Shallow embedding of `src/chat_with_csv/agent_tools.py`.

The module under verification holds five pieces of logic:
  * `get_sqlite_engine` — session-cached creation of the SQLite engine,
    loading the CSV into a dataframe and mirroring it into a table `db`;
  * `remove_markdown_code_block` — stripping a Markdown SQL fence;
  * `database_tool` — SQL generation / execution / answer composition pipeline;
  * `handle_unexpected_query` — fixed apology string;
  * `describe_dataset` — keyword-routed structural answers about the dataset.

Pandas, Streamlit, SQLAlchemy and the LLM calls are external collaborators:
they are modelled as explicit data (a `DataFrame` record, an explicit
`SessionState`, a table list for the engine, and function parameters for the
LLM calls and the pandas formatters). Python string primitives used by the
module (`in`, `lower`, `startswith`, `endswith`, slicing, `strip`) are
embedded as executable functions over `List Char`.
-/

/-- Python substring test `needle in haystack`, on character lists:
true iff `needle` occurs contiguously inside `haystack`. -/
def listContains (needle : List Char) : List Char → Bool
  | [] => needle.isEmpty
  | c :: t => needle.isPrefixOf (c :: t) || listContains needle t

/-- Python `needle in haystack` on strings. -/
def pyIn (needle haystack : String) : Bool :=
  listContains needle.data haystack.data

/-- Python `s.lower()` (ASCII case folding, which covers every keyword the
module compares against). -/
def strLower (s : String) : String :=
  ⟨s.data.map Char.toLower⟩

/-- Python `s.strip()`: remove leading and trailing whitespace. -/
def pyStrip (s : String) : String :=
  ⟨((s.data.dropWhile Char.isWhitespace).reverse.dropWhile Char.isWhitespace).reverse⟩

/-- Python `s[6:-3]`: the characters strictly between the 6-character prefix
and the 3-character suffix. -/
def sliceInner (s : String) : String :=
  ⟨(s.data.drop 6).take (s.data.length - 9)⟩

/-- The in-memory dataframe: named columns plus rows (pandas `DataFrame`,
restricted to what the module observes: `df.columns`, `df.shape`, row data). -/
structure DataFrame where
  columns : List String
  rows : List (List String)
deriving DecidableEq, Repr

/-- The pandas formatting calls `describe_dataset` delegates to
(`df.describe().to_html()` and `df.head().to_string()`); their output text is
opaque to the module, so they are parameters of the embedding. -/
structure PandasModel where
  describeHtml : DataFrame → String
  headString : DataFrame → String

/-- The SQLite engine: the named tables of the backing database file. -/
structure Engine where
  tables : List (String × DataFrame)
deriving DecidableEq

/-- SQL `DROP TABLE IF EXISTS name` against an engine. -/
def Engine.dropTableIfExists (e : Engine) (name : String) : Engine :=
  ⟨e.tables.filter (fun p => p.1 != name)⟩

/-- Pandas `df.to_sql(name, engine, index=False)`: materialise the dataframe
as a fresh table. -/
def Engine.toSql (e : Engine) (name : String) (df : DataFrame) : Engine :=
  ⟨(name, df) :: e.tables⟩

/-- `SELECT COUNT(*) FROM db` against an engine: `none` when no table named
`db` exists. -/
def selectCountStarFromDb (e : Engine) : Option Nat :=
  (e.tables.find? (fun p => p.1 == "db")).map (fun p => p.2.rows.length)

/-- The Streamlit session state slots the module reads and writes:
`st.session_state.engine`, `st.session_state.df`, `st.session_state.columns`. -/
structure SessionState where
  engine : Option Engine
  df : Option DataFrame
  columns : List String
deriving DecidableEq

/-- Observable side effects of `get_sqlite_engine`: the CSV load, each
`DROP TABLE IF EXISTS db` statement, and the `to_sql` bulk insert. -/
inductive DbEffect
  | loadCsv
  | dropTable
  | insert
deriving DecidableEq, BEq, Repr

/-- `get_sqlite_engine` from the source. `csvData` stands for the result of
`Tools.load_csv_files(Tools.PATH)` (modelled from the spec: the CSV loader is
an out-of-scope collaborator that yields the session dataframe); `diskTables`
are the tables already present in the `db.db` file when the engine is created.
Returns the engine, the updated session state, and the list of side effects,
in the order the source performs them. -/
def get_sqlite_engine (csvData : DataFrame) (diskTables : List (String × DataFrame))
    (s : SessionState) : Engine × SessionState × List DbEffect :=
  match s.engine with
  | some engine => (engine, s, [])
  | none =>
      let df := csvData
      let engine0 : Engine := ⟨diskTables⟩
      let engine1 := (engine0.dropTableIfExists "db").dropTableIfExists "db"
      let engine2 := engine1.toSql "db" df
      (engine2,
       { engine := some engine2, df := some df, columns := df.columns },
       [DbEffect.loadCsv, DbEffect.dropTable, DbEffect.dropTable, DbEffect.insert])

/-- A session acquiring the engine `n` times from a fresh state
(`st.session_state.engine` initialised to `None`), accumulating the effects. -/
def acquireN (csvData : DataFrame) (diskTables : List (String × DataFrame)) :
    Nat → SessionState × List DbEffect
  | 0 => ({ engine := none, df := none, columns := [] }, [])
  | n + 1 =>
      let p := acquireN csvData diskTables n
      let r := get_sqlite_engine csvData diskTables p.1
      (r.2.1, p.2 ++ r.2.2)

/-- `remove_markdown_code_block` from the source: strip the fence only when
the string starts with the opening marker and ends with the closing marker. -/
def remove_markdown_code_block (sql_code : String) : String :=
  if "```sql".data.isPrefixOf sql_code.data && "```".data.isSuffixOf sql_code.data then
    pyStrip (sliceInner sql_code)
  else
    sql_code

/-- `handle_unexpected_query` from the source. -/
def handle_unexpected_query (_query : String) : String :=
  "I\x27m sorry, I couldn\x27t understand your request. Could you please rephrase or provide more information?"

/-- The fixed clarification message of `describe_dataset`. -/
def clarificationMessage : String :=
  "I\x27m sorry, I couldn\x27t understand your request about the dataset. Could you please be more specific? You can ask about the dataset\x27s description, statistics, columns, shape, or a sample of the data."

/-- `describe_dataset` from the source: a keyword-matched branch chain over
the lowercased query, in source order. -/
def describe_dataset (pm : PandasModel) (df : DataFrame) (query : String) : String :=
  if pyIn "describe" (strLower query) || pyIn "statistics" (strLower query) then
    "Here\x27s a statistical description of the numerical columns in the dataset:\n" ++
      pm.describeHtml df
  else if pyIn "columns" (strLower query) || pyIn "fields" (strLower query) then
    "The dataset contains the following columns: " ++ String.intercalate ", " df.columns
  else if pyIn "shape" (strLower query) || pyIn "size" (strLower query) then
    "The dataset has " ++ toString df.rows.length ++ " rows and " ++
      toString df.columns.length ++ " columns."
  else if pyIn "sample" (strLower query) then
    "Here\x27s a sample of the first few rows of the dataset:\n" ++ pm.headString df
  else
    clarificationMessage

/-- The five branches of `describe_dataset`. -/
inductive DescribeBranch
  | stats
  | cols
  | shape
  | sample
  | clarify
deriving DecidableEq, Repr

/-- Which branch of `describe_dataset` fires for a given query: the same
condition chain as the source, in the same order. -/
def selectBranch (query : String) : DescribeBranch :=
  if pyIn "describe" (strLower query) || pyIn "statistics" (strLower query) then
    DescribeBranch.stats
  else if pyIn "columns" (strLower query) || pyIn "fields" (strLower query) then
    DescribeBranch.cols
  else if pyIn "shape" (strLower query) || pyIn "size" (strLower query) then
    DescribeBranch.shape
  else if pyIn "sample" (strLower query) then
    DescribeBranch.sample
  else
    DescribeBranch.clarify

/-- The text each branch of `describe_dataset` produces. -/
def branchOutput (pm : PandasModel) (df : DataFrame) : DescribeBranch → String
  | DescribeBranch.stats =>
      "Here\x27s a statistical description of the numerical columns in the dataset:\n" ++
        pm.describeHtml df
  | DescribeBranch.cols =>
      "The dataset contains the following columns: " ++ String.intercalate ", " df.columns
  | DescribeBranch.shape =>
      "The dataset has " ++ toString df.rows.length ++ " rows and " ++
        toString df.columns.length ++ " columns."
  | DescribeBranch.sample =>
      "Here\x27s a sample of the first few rows of the dataset:\n" ++ pm.headString df
  | DescribeBranch.clarify => clarificationMessage

/-- Modelled from the spec: langchain `QuerySQLDataBaseTool` constructed with
`handle_tool_error=True` — an execution error is caught and rendered as an
error string handed back as the tool result, never raised. `exec` is the
relational backend executing one statement. -/
def execute_query (exec : String → Except String String) (sql : String) : String :=
  match exec sql with
  | Except.ok r => r
  | Except.error e => "Error: " ++ e

/-- Modelled from the spec: the `SQLDatabase` wrapper, of which `database_tool`
only fixes the visible-table restriction `include_tables`. -/
structure SQLDatabaseModel where
  include_tables : List String
deriving DecidableEq

/-- The `SQLDatabase` handle `database_tool` constructs:
`SQLDatabase(engine=get_sqlite_engine(), include_tables=["db"])`. -/
def database_tool_db : SQLDatabaseModel :=
  ⟨["db"]⟩

/-- `database_tool` from the source. The two LLM calls are parameters:
`writeQuery` (the SQL-generation chain) and `answerLLM` (the answer prompt
applied to question, column names, SQL and result); `exec` is the relational
backend behind `execute_query`. The generated SQL is fence-stripped, executed
with errors caught by `execute_query`, and the result — error text included —
is composed into the final answer. -/
def database_tool (writeQuery : String → String)
    (answerLLM : String → String → String → String → String)
    (exec : String → Except String String)
    (columns : List String) (question : String) : String :=
  let sql := remove_markdown_code_block (writeQuery question)
  let result := execute_query exec sql
  answerLLM question (String.intercalate ", " columns) sql result

/-! ## Helper lemmas -/

/-- `listContains` is complete for contiguous-sublist occurrence. -/
theorem listContains_eq_true_of_infix {n h : List Char} (hin : n <:+: h) :
    listContains n h = true := by
  induction h with
  | nil =>
      rcases hin with ⟨s, t, he⟩
      rcases List.append_eq_nil.mp he with ⟨hst, ht⟩
      rcases List.append_eq_nil.mp hst with ⟨hs, hn⟩
      subst hn
      rfl
  | cons c t ih =>
      rcases List.infix_cons_iff.mp hin with hpre | hinf
      · simp [listContains, List.isPrefixOf_iff_prefix.mpr hpre]
      · simp [listContains, ih hinf]

/-- Concrete dataframe used to instantiate the theorems below. -/
def dfW : DataFrame :=
  ⟨["a", "b"], [["1", "x"], ["2", "y"], ["3", "z"]]⟩

/-- Concrete pandas formatter used to instantiate the theorems below. -/
def pmW : PandasModel :=
  ⟨fun _ => "HTML", fun _ => "HEAD"⟩

/-- Concrete cached engine used to instantiate the theorems below. -/
def engW : Engine :=
  ⟨[]⟩

/-- Concrete session state already holding a cached engine. -/
def ssW : SessionState :=
  ⟨some engW, none, []⟩

/-! ## Claim theorems -/

/-- C7: `handle_unexpected_query` returns the same fixed apology string for
every input, regardless of content (and, being a total function, never
fails). -/
theorem handle_unexpected_query_constant :
    (∀ q : String, handle_unexpected_query q =
      "I\x27m sorry, I couldn\x27t understand your request. Could you please rephrase or provide more information?") ∧
    ∀ q q' : String, handle_unexpected_query q = handle_unexpected_query q' :=
  ⟨fun _ => rfl, fun _ _ => rfl⟩

/-- C9: `describe_dataset` is case-insensitive in its query argument: two
queries with the same lowercasing select the same branch and produce the
same result. -/
theorem describe_dataset_case_insensitive (pm : PandasModel) (df : DataFrame)
    (q q' : String) (h : strLower q = strLower q') :
    describe_dataset pm df q = describe_dataset pm df q' := by
  simp only [describe_dataset, h]

/-- Witness for C9 at a concrete uppercase/lowercase pair. -/
theorem describe_dataset_case_insensitive_witness :
    describe_dataset pmW dfW "DESCRIBE The Data" =
      describe_dataset pmW dfW "describe the data" :=
  describe_dataset_case_insensitive pmW dfW "DESCRIBE The Data" "describe the data"
    (by decide)

/-- C10: keyword matching in `describe_dataset` is substring containment,
not whole-word matching: "emphasize" fires the shape/size branch because it
contains "size", and "described" fires the statistics branch because it
contains "describe". -/
theorem describe_dataset_substring_match (pm : PandasModel) (df : DataFrame) :
    describe_dataset pm df "emphasize" =
      "The dataset has " ++ toString df.rows.length ++ " rows and " ++
        toString df.columns.length ++ " columns." ∧
    describe_dataset pm df "described" =
      "Here\x27s a statistical description of the numerical columns in the dataset:\n" ++
        pm.describeHtml df :=
  ⟨rfl, rfl⟩

/-- C6: a query whose lowercase form contains none of the seven routing
keywords makes `describe_dataset` return the fixed clarification message
verbatim (the function is total, so no exception is possible). -/
theorem describe_dataset_clarification (pm : PandasModel) (df : DataFrame) (q : String)
    (h1 : pyIn "describe" (strLower q) = false) (h2 : pyIn "statistics" (strLower q) = false)
    (h3 : pyIn "columns" (strLower q) = false) (h4 : pyIn "fields" (strLower q) = false)
    (h5 : pyIn "shape" (strLower q) = false) (h6 : pyIn "size" (strLower q) = false)
    (h7 : pyIn "sample" (strLower q) = false) :
    describe_dataset pm df q = clarificationMessage := by
  simp [describe_dataset, h1, h2, h3, h4, h5, h6, h7]

/-- Witness for C6 at the spec's example query. -/
theorem describe_dataset_clarification_witness :
    describe_dataset pmW dfW "unknown request" = clarificationMessage :=
  describe_dataset_clarification pmW dfW "unknown request" (by decide) (by decide)
    (by decide) (by decide) (by decide) (by decide) (by decide)

/-- C1: `describe_dataset` computes the output of exactly one branch, the one
`selectBranch` picks by keyword match in source order with the first match
winning; each branch fires exactly when its keywords match and no earlier
branch matched, and in particular a query matching both "describe" and
"sample" (or both "describe" and "columns") resolves to the statistics
branch. -/
theorem describe_dataset_branch_order :
    (∀ pm df q, describe_dataset pm df q = branchOutput pm df (selectBranch q)) ∧
    (∀ q, selectBranch q = DescribeBranch.stats ↔
      (pyIn "describe" (strLower q) || pyIn "statistics" (strLower q)) = true) ∧
    (∀ q, selectBranch q = DescribeBranch.cols ↔
      ((pyIn "describe" (strLower q) || pyIn "statistics" (strLower q)) = false ∧
       (pyIn "columns" (strLower q) || pyIn "fields" (strLower q)) = true)) ∧
    (∀ q, selectBranch q = DescribeBranch.shape ↔
      ((pyIn "describe" (strLower q) || pyIn "statistics" (strLower q)) = false ∧
       (pyIn "columns" (strLower q) || pyIn "fields" (strLower q)) = false ∧
       (pyIn "shape" (strLower q) || pyIn "size" (strLower q)) = true)) ∧
    (∀ q, selectBranch q = DescribeBranch.sample ↔
      ((pyIn "describe" (strLower q) || pyIn "statistics" (strLower q)) = false ∧
       (pyIn "columns" (strLower q) || pyIn "fields" (strLower q)) = false ∧
       (pyIn "shape" (strLower q) || pyIn "size" (strLower q)) = false ∧
       pyIn "sample" (strLower q) = true)) ∧
    (∀ q, selectBranch q = DescribeBranch.clarify ↔
      ((pyIn "describe" (strLower q) || pyIn "statistics" (strLower q)) = false ∧
       (pyIn "columns" (strLower q) || pyIn "fields" (strLower q)) = false ∧
       (pyIn "shape" (strLower q) || pyIn "size" (strLower q)) = false ∧
       pyIn "sample" (strLower q) = false)) ∧
    (∀ q, pyIn "describe" (strLower q) = true → pyIn "sample" (strLower q) = true →
      selectBranch q = DescribeBranch.stats) ∧
    (∀ q, pyIn "describe" (strLower q) = true → pyIn "columns" (strLower q) = true →
      selectBranch q = DescribeBranch.stats) := by
  refine ⟨fun pm df q => ?_, fun q => ?_, fun q => ?_, fun q => ?_, fun q => ?_,
    fun q => ?_, fun q h1 h2 => ?_, fun q h1 h2 => ?_⟩
  · cases hA : pyIn "describe" (strLower q) || pyIn "statistics" (strLower q) <;>
      cases hB : pyIn "columns" (strLower q) || pyIn "fields" (strLower q) <;>
        cases hC : pyIn "shape" (strLower q) || pyIn "size" (strLower q) <;>
          cases hD : pyIn "sample" (strLower q) <;>
            simp [describe_dataset, selectBranch, branchOutput, hA, hB, hC, hD]
  · cases hA : pyIn "describe" (strLower q) || pyIn "statistics" (strLower q) <;>
      cases hB : pyIn "columns" (strLower q) || pyIn "fields" (strLower q) <;>
        cases hC : pyIn "shape" (strLower q) || pyIn "size" (strLower q) <;>
          cases hD : pyIn "sample" (strLower q) <;>
            simp [selectBranch, hA, hB, hC, hD]
  · cases hA : pyIn "describe" (strLower q) || pyIn "statistics" (strLower q) <;>
      cases hB : pyIn "columns" (strLower q) || pyIn "fields" (strLower q) <;>
        cases hC : pyIn "shape" (strLower q) || pyIn "size" (strLower q) <;>
          cases hD : pyIn "sample" (strLower q) <;>
            simp [selectBranch, hA, hB, hC, hD]
  · cases hA : pyIn "describe" (strLower q) || pyIn "statistics" (strLower q) <;>
      cases hB : pyIn "columns" (strLower q) || pyIn "fields" (strLower q) <;>
        cases hC : pyIn "shape" (strLower q) || pyIn "size" (strLower q) <;>
          cases hD : pyIn "sample" (strLower q) <;>
            simp [selectBranch, hA, hB, hC, hD]
  · cases hA : pyIn "describe" (strLower q) || pyIn "statistics" (strLower q) <;>
      cases hB : pyIn "columns" (strLower q) || pyIn "fields" (strLower q) <;>
        cases hC : pyIn "shape" (strLower q) || pyIn "size" (strLower q) <;>
          cases hD : pyIn "sample" (strLower q) <;>
            simp [selectBranch, hA, hB, hC, hD]
  · cases hA : pyIn "describe" (strLower q) || pyIn "statistics" (strLower q) <;>
      cases hB : pyIn "columns" (strLower q) || pyIn "fields" (strLower q) <;>
        cases hC : pyIn "shape" (strLower q) || pyIn "size" (strLower q) <;>
          cases hD : pyIn "sample" (strLower q) <;>
            simp [selectBranch, hA, hB, hC, hD]
  · simp [selectBranch, h1]
  · simp [selectBranch, h1]

/-- Witness for C1: overlapping-keyword queries resolve to the statistics
branch. -/
theorem describe_dataset_branch_order_witness :
    selectBranch "describe a sample" = DescribeBranch.stats ∧
    selectBranch "describe the columns" = DescribeBranch.stats :=
  ⟨describe_dataset_branch_order.2.2.2.2.2.2.1 "describe a sample" (by decide) (by decide),
   describe_dataset_branch_order.2.2.2.2.2.2.2 "describe the columns" (by decide) (by decide)⟩

/-- C2: a string bounded by the opening "```sql" marker and the closing
"```" marker is mapped by `remove_markdown_code_block` to the inner content
between the markers with surrounding whitespace stripped; a string not
bounded by both markers is returned unchanged. -/
theorem remove_markdown_code_block_spec :
    (∀ mid : String,
      remove_markdown_code_block ("```sql" ++ mid ++ "```") = pyStrip mid) ∧
    (∀ s : String,
      ("```sql".data.isPrefixOf s.data && "```".data.isSuffixOf s.data) = false →
      remove_markdown_code_block s = s) := by
  constructor
  · intro mid
    have hdata : ("```sql" ++ mid ++ "```").data =
        "```sql".data ++ (mid.data ++ "```".data) := by
      simp [String.data_append]
    have h1 : "```sql".data.isPrefixOf ("```sql" ++ mid ++ "```").data = true := by
      rw [hdata]
      exact List.isPrefixOf_iff_prefix.mpr (List.prefix_append _ _)
    have h2 : "```".data.isSuffixOf ("```sql" ++ mid ++ "```").data = true := by
      rw [hdata, ← List.append_assoc]
      exact List.isSuffixOf_iff_suffix.mpr (List.suffix_append _ _)
    have hinner : sliceInner ("```sql" ++ mid ++ "```") = mid := by
      unfold sliceInner
      have hlen : ("```sql" ++ mid ++ "```").data.length - 9 = mid.data.length := by
        rw [hdata]
        simp [List.length_append]
      rw [hlen, hdata, List.drop_left' (by rfl), List.take_left' rfl]
    rw [remove_markdown_code_block, if_pos (by rw [h1, h2]; rfl), hinner]
  · intro s h
    simp [remove_markdown_code_block, h]

/-- Witness for C2: a fenced statement is stripped, an unfenced one passes
through. -/
theorem remove_markdown_code_block_spec_witness :
    remove_markdown_code_block ("```sql" ++ " SELECT 1 " ++ "```") = "SELECT 1" ∧
    remove_markdown_code_block "SELECT 2" = "SELECT 2" :=
  ⟨(remove_markdown_code_block_spec.1 " SELECT 1 ").trans (by decide),
   remove_markdown_code_block_spec.2 "SELECT 2" (by decide)⟩

/-- C5: a query whose lowercase form matches "shape" or "size" and none of
the earlier keywords makes `describe_dataset` return the shape sentence,
which contains the exact row count and the exact column count of the
dataframe as substrings. -/
theorem describe_dataset_shape_counts (pm : PandasModel) (df : DataFrame) (q : String)
    (h1 : pyIn "describe" (strLower q) = false) (h2 : pyIn "statistics" (strLower q) = false)
    (h3 : pyIn "columns" (strLower q) = false) (h4 : pyIn "fields" (strLower q) = false)
    (h5 : (pyIn "shape" (strLower q) || pyIn "size" (strLower q)) = true) :
    describe_dataset pm df q =
      "The dataset has " ++ toString df.rows.length ++ " rows and " ++
        toString df.columns.length ++ " columns." ∧
    listContains (toString df.rows.length).data (describe_dataset pm df q).data = true ∧
    listContains (toString df.columns.length).data (describe_dataset pm df q).data = true := by
  have heq : describe_dataset pm df q =
      "The dataset has " ++ toString df.rows.length ++ " rows and " ++
        toString df.columns.length ++ " columns." := by
    simp [describe_dataset, h1, h2, h3, h4, h5]
  refine ⟨heq, ?_, ?_⟩
  · rw [heq]
    apply listContains_eq_true_of_infix
    refine ⟨"The dataset has ".data,
      (" rows and " ++ toString df.columns.length ++ " columns.").data, ?_⟩
    simp [String.data_append]
  · rw [heq]
    apply listContains_eq_true_of_infix
    refine ⟨("The dataset has " ++ toString df.rows.length ++ " rows and ").data,
      " columns.".data, ?_⟩
    simp [String.data_append]

/-- Witness for C5 at the query "shape" on a concrete 3-by-2 dataframe. -/
theorem describe_dataset_shape_counts_witness :
    describe_dataset pmW dfW "shape" =
      "The dataset has " ++ toString dfW.rows.length ++ " rows and " ++
        toString dfW.columns.length ++ " columns." ∧
    listContains (toString dfW.rows.length).data (describe_dataset pmW dfW "shape").data = true ∧
    listContains (toString dfW.columns.length).data (describe_dataset pmW dfW "shape").data = true :=
  describe_dataset_shape_counts pmW dfW "shape" (by decide) (by decide) (by decide)
    (by decide) (by decide)

/-- C3: the first acquisition (session state holding no engine yet) loads the
CSV, materialises it as table `db`, and records the column list: afterwards
`SELECT COUNT(*) FROM db` returns exactly the number of CSV rows and the
recorded column list has exactly the number of CSV columns. -/
theorem get_sqlite_engine_first_acquisition (csv : DataFrame)
    (disk : List (String × DataFrame)) (s : SessionState) (h : s.engine = none) :
    selectCountStarFromDb (get_sqlite_engine csv disk s).1 = some csv.rows.length ∧
    (get_sqlite_engine csv disk s).2.1.columns.length = csv.columns.length := by
  simp [get_sqlite_engine, h, selectCountStarFromDb, Engine.toSql, List.find?]

/-- Witness for C3 on a concrete 3-row, 2-column dataframe from a fresh
session. -/
theorem get_sqlite_engine_first_acquisition_witness :
    selectCountStarFromDb (get_sqlite_engine dfW [] ⟨none, none, []⟩).1 =
      some dfW.rows.length ∧
    (get_sqlite_engine dfW [] ⟨none, none, []⟩).2.1.columns.length =
      dfW.columns.length :=
  get_sqlite_engine_first_acquisition dfW [] ⟨none, none, []⟩ rfl

/-- Acquiring the engine more than once from a fresh session changes nothing
after the first call: state and accumulated effects are those of the first
call alone. -/
theorem acquireN_succ_eq (csv : DataFrame) (disk : List (String × DataFrame)) :
    ∀ n, acquireN csv disk (n + 1) = acquireN csv disk 1 := by
  intro n
  induction n with
  | zero => rfl
  | succ m ih =>
      show acquireN csv disk (m + 1 + 1) = acquireN csv disk 1
      conv_lhs => rw [acquireN]
      rw [ih]
      simp [acquireN, get_sqlite_engine]

/-- C4: a call that finds a cached engine returns that identical handle with
the session state untouched and no side effects; over any whole session the
CSV load and the table insert each happen exactly once, and the session state
stays equal to the state established by the first call. -/
theorem get_sqlite_engine_cached :
    (∀ csv disk (s : SessionState) e, s.engine = some e →
      get_sqlite_engine csv disk s = (e, s, [])) ∧
    (∀ csv disk n,
      (acquireN csv disk (n + 1)).2.count DbEffect.insert = 1 ∧
      (acquireN csv disk (n + 1)).2.count DbEffect.loadCsv = 1 ∧
      (acquireN csv disk (n + 1)).1 = (acquireN csv disk 1).1) := by
  constructor
  · intro csv disk s e h
    simp [get_sqlite_engine, h]
  · intro csv disk n
    rw [acquireN_succ_eq]
    exact ⟨rfl, rfl, rfl⟩

/-- Witness for C4: a session state holding a cached engine is passed through
unchanged. -/
theorem get_sqlite_engine_cached_witness :
    get_sqlite_engine dfW [] ssW = (engW, ssW, []) :=
  get_sqlite_engine_cached.1 dfW [] ssW engW rfl

/-- C8: when the backend fails on the generated (fence-stripped) SQL
statement, `database_tool` still returns normally: the caught error text is
what reaches the answer-composition call; and the `SQLDatabase` handle it
builds is restricted to the single table `db`. -/
theorem database_tool_error_reporting :
    (∀ (writeQuery : String → String)
        (answerLLM : String → String → String → String → String)
        (runSql : String → Except String String) (columns : List String)
        (question err : String),
      runSql (remove_markdown_code_block (writeQuery question)) = Except.error err →
      database_tool writeQuery answerLLM runSql columns question =
        answerLLM question (String.intercalate ", " columns)
          (remove_markdown_code_block (writeQuery question)) ("Error: " ++ err)) ∧
    database_tool_db.include_tables = ["db"] := by
  constructor
  · intro wq al runSql cols q err h
    simp [database_tool, execute_query, h]
  · rfl

/-- Witness for C8: a failing backend turns into an error string in the
composed answer, not an exception. -/
theorem database_tool_error_reporting_witness :
    database_tool (fun _ => "SELECT x FROM t") (fun _ _ _ r => r)
      (fun _ => Except.error "no such table: t") [] "question" =
      "Error: no such table: t" :=
  (database_tool_error_reporting.1 (fun _ => "SELECT x FROM t") (fun _ _ _ r => r)
    (fun _ => Except.error "no such table: t") [] "question" "no such table: t" rfl).trans rfl
